import Mathlib

/-!
Shallow embedding of the quota-gated Sentinel Hub batch pipeline:
the usage ledger (`app/models/user_api_usage.py`), the usage service
(`app/services/api_usage_service.py`) and the batch processor
(`app/modules/upload/processors/real_sentinel_hub_processor.py`).

Conventions of the embedding:
* timestamps are integer seconds (`Int`); `timedelta(days=d)` is `d * 86400`,
  and `timedelta.days` is floor division by 86400 (`Int.fdiv`), matching
  Python's normalisation;
* Python floats are modelled as exact rationals (`ℚ`), except for the
  geometry utility, whose square root forces real numbers (`ℝ`);
* Python code that can raise is modelled with `Except` (the unguarded
  integer division in `get_usage_summary` surfaces as `.error`);
* `strftime` calendar rendering is abstracted as a rendering of the raw
  timestamp (the claims only need that the date appears in the message);
* the external Sentinel Hub call `request.get_data()` is an oracle input
  (`SHResponse`), one per (property, period) pair.
-/

namespace GeoPulse

/-- `UserAPIUsage` row (`app/models/user_api_usage.py`): allowed and
performed call counters plus creation/expiry timestamps. -/
structure UserAPIUsage where
  allowed_api_calls : Int
  performed_api_calls : Int
  user_created_date : Int
  user_expiry_date : Int
deriving DecidableEq

/-- Stand-in for `timestamp.strftime("%Y-%m-%d")`: the claims only require
that the rendered date of a timestamp appears inside a message, so the
calendar formatting is abstracted as rendering the timestamp itself. -/
def strftimeYMD (t : Int) : String := toString t

/-- `UserAPIUsage.can_make_api_calls` (lines 44-65): expiry check first,
then the remaining-quota check, otherwise success with an empty message. -/
def can_make_api_calls (u : UserAPIUsage) (current_time : Int)
    (required_calls : Int) : Bool × String :=
  if current_time > u.user_expiry_date then
    (false, "User account expired on " ++ strftimeYMD u.user_expiry_date ++
      ". Please renew your subscription.")
  else
    let remaining_calls := u.allowed_api_calls - u.performed_api_calls
    if remaining_calls < required_calls then
      (false, "API call limit exceeded. Used: " ++
        toString u.performed_api_calls ++ "/" ++
        toString u.allowed_api_calls ++ ". Need " ++
        toString required_calls ++ " more calls.")
    else
      (true, "")

/-- `UserAPIUsage.increment_api_calls` (lines 67-70). -/
def increment_api_calls (u : UserAPIUsage) (successful_calls : Int) :
    UserAPIUsage :=
  { u with performed_api_calls := u.performed_api_calls + successful_calls }

/-- Summary dictionary built by `UserAPIUsage.get_usage_summary`. -/
structure UsageSummary where
  allowed_calls : Int
  performed_calls : Int
  remaining_calls : Int
  usage_percentage : ℚ
  account_created : String
  account_expires : String
  days_until_expiry : Int
  is_expired : Bool
deriving DecidableEq

/-- Python's `round(x, 2)` on the percentage (tie-breaking is irrelevant to
every claim, so Mathlib's `round` stands in). -/
def round2 (q : ℚ) : ℚ := ((round (q * 100) : ℤ) : ℚ) / 100

/-- `UserAPIUsage.get_usage_summary` (lines 72-89). The Python body divides
`performed_api_calls / allowed_api_calls` with no guard, so a zero
allowance raises `ZeroDivisionError`; the embedding surfaces that raise as
`.error`. -/
def get_usage_summary (u : UserAPIUsage) (current_time : Int) :
    Except String UsageSummary :=
  if u.allowed_api_calls = 0 then
    .error "ZeroDivisionError: division by zero"
  else
    .ok {
      allowed_calls := u.allowed_api_calls
      performed_calls := u.performed_api_calls
      remaining_calls := max 0 (u.allowed_api_calls - u.performed_api_calls)
      usage_percentage :=
        round2 (((u.performed_api_calls : ℚ) / (u.allowed_api_calls : ℚ)) * 100)
      account_created := strftimeYMD u.user_created_date
      account_expires := strftimeYMD u.user_expiry_date
      days_until_expiry :=
        max 0 (Int.fdiv (u.user_expiry_date - current_time) 86400)
      is_expired := decide (current_time > u.user_expiry_date) }

/-- `UserAPIUsage.extend_expiry` (lines 91-101): from now when already
expired, otherwise from the current expiry. -/
def extend_expiry (u : UserAPIUsage) (current_time : Int) (days : Int) :
    UserAPIUsage :=
  if current_time > u.user_expiry_date then
    { u with user_expiry_date := current_time + days * 86400 }
  else
    { u with user_expiry_date := u.user_expiry_date + days * 86400 }

/-- `UserAPIUsage.reset_api_calls` (lines 103-108). -/
def reset_api_calls (u : UserAPIUsage) (new_limit : Option Int) :
    UserAPIUsage :=
  { u with performed_api_calls := 0
           allowed_api_calls := new_limit.getD u.allowed_api_calls }

/-- `APIUsageService.check_api_limit` (lines 45-72). The DB lookup result is
the `Option UserAPIUsage` argument. The Python body computes
`can_make_api_calls` and then `get_usage_summary` inside one `try`; a raise
from the summary (zero allowance) is caught and replaced by the generic
limit-check error, discarding the ledger's own reason. -/
def check_api_limit (api_usage : Option UserAPIUsage) (current_time : Int)
    (required_calls : Int) : Bool × String × Option UsageSummary :=
  match api_usage with
  | none => (false, "API usage record not found. Please contact support.", none)
  | some u =>
    match get_usage_summary u current_time with
    | .error _ => (false, "Error checking API limits. Please try again.", none)
    | .ok info =>
      ((can_make_api_calls u current_time required_calls).1,
       (can_make_api_calls u current_time required_calls).2, some info)

/-- `APIUsageService.increment_api_usage` (lines 74-102): increments when
the record exists, reports failure otherwise. -/
def increment_api_usage (api_usage : Option UserAPIUsage)
    (successful_calls : Int) : Option UserAPIUsage × Bool :=
  match api_usage with
  | none => (none, false)
  | some u => (some (increment_api_calls u successful_calls), true)

/-- The three mean index values produced for one (property, period) call. -/
structure Indices where
  ndvi : ℚ
  ndbi : ℚ
  ndwi : ℚ
deriving DecidableEq

/-- The zero measurement returned on every analyzer failure path. -/
def Indices.zero : Indices := ⟨0, 0, 0⟩

/-- One pixel of the 3-band raster returned by Sentinel Hub
(`data[:, :, 0..2]`). -/
structure Pixel where
  b0 : ℚ
  b1 : ℚ
  b2 : ℚ
deriving DecidableEq

/-- `np.mean` over one band of the raster. -/
def qmean (xs : List ℚ) : ℚ := xs.sum / (xs.length : ℚ)

/-- Oracle outcome of one `request.get_data()` call:
* `data first rest` — a non-empty response list whose first raster holds
  the given pixels (`data = response[0]`);
* `empty` — a falsy or length-0 response;
* `exn msg parsedMessage` — the call raised; `parsedMessage` is the
  specific message recovered by the `Server response:` JSON extraction
  when that parse succeeds, otherwise the original text is kept. -/
inductive SHResponse where
  | data (first : List Pixel) (rest : List (List Pixel))
  | empty
  | exn (msg : String) (parsedMessage : Option String)
deriving DecidableEq

/-- Rendering of the Python tuple `time_period` inside the no-data message
(quote characters of the Python `repr` are dropped). -/
def periodStr (p : String × String) : String :=
  "(" ++ p.1 ++ ", " ++ p.2 ++ ")"

/-- `RealSentinelHubProcessor._analyze_single_property` (lines 301-414).
Every path returns a `(indices, error_message)` pair: the mean of each band
with an empty error on data, and the zero measurement carrying the error
text on an empty response or a raise. -/
def analyze_single_property (lat lon extent_ac : ℚ)
    (time_period : String × String) (resp : SHResponse) : Indices × String :=
  match resp with
  | .data first _ =>
      ({ ndvi := qmean (first.map Pixel.b0)
         ndbi := qmean (first.map Pixel.b1)
         ndwi := qmean (first.map Pixel.b2) }, "")
  | .empty =>
      (Indices.zero, "No satellite data available for period " ++ periodStr time_period)
  | .exn msg parsedMessage =>
      (Indices.zero, parsedMessage.getD msg)

/-- The success test applied to each measurement in the batch loop
(lines 225-226): `not error and any(v != 0.0 for v in indices.values())`. -/
def measurementSuccessful (m : Indices × String) : Bool :=
  decide (m.2 = "") &&
    (decide (m.1.ndvi ≠ 0) || decide (m.1.ndbi ≠ 0) || decide (m.1.ndwi ≠ 0))

/-- One input row of the batch: coordinates, land area, and the untouched
pass-through columns. -/
structure Property where
  latitude : ℚ
  longitude : ℚ
  extent_ac : ℚ
  passthrough : List String
deriving DecidableEq

/-- One output row after `_get_real_satellite_indices`: the original input
row, the six stored index values and the `_temp_conversion_status` text. -/
structure RowResult where
  prop : Property
  before_ndvi : ℚ
  after_ndvi : ℚ
  before_ndbi : ℚ
  after_ndbi : ℚ
  before_ndwi : ℚ
  after_ndwi : ℚ
  conversion_status : String
deriving DecidableEq

/-- Environment outcome for one property of the batch loop:
* `calls beforeResp afterResp` — the two analyzer calls return (the
  analyzer itself never raises);
* `exn msg` — the `except Exception` branch of the loop body
  (lines 265-279), an unexpected raise after the analyses. -/
inductive PropOutcome where
  | calls (beforeResp afterResp : SHResponse)
  | exn (msg : String)
deriving DecidableEq

/-- Body of the per-property loop of `_get_real_satellite_indices`
(lines 206-279). Returns the produced row together with the number of
individually successful calls added to `successful_calls` (2 when both
measurements pass, else one per passing measurement, 0 on a loop raise). -/
def process_property (before_period after_period : String × String)
    (p : Property) (out : PropOutcome) : RowResult × ℕ :=
  match out with
  | .exn msg =>
      ({ prop := p, before_ndvi := 0, after_ndvi := 0, before_ndbi := 0,
         after_ndbi := 0, before_ndwi := 0, after_ndwi := 0,
         conversion_status := msg }, 0)
  | .calls beforeResp afterResp =>
      let bm := analyze_single_property p.latitude p.longitude p.extent_ac
        before_period beforeResp
      let am := analyze_single_property p.latitude p.longitude p.extent_ac
        after_period afterResp
      let bok := measurementSuccessful bm
      let aok := measurementSuccessful am
      if bok && aok then
        ({ prop := p, before_ndvi := bm.1.ndvi, after_ndvi := am.1.ndvi,
           before_ndbi := bm.1.ndbi, after_ndbi := am.1.ndbi,
           before_ndwi := bm.1.ndwi, after_ndwi := am.1.ndwi,
           conversion_status := "Successful" }, 2)
      else
        ({ prop := p, before_ndvi := 0, after_ndvi := 0, before_ndbi := 0,
           after_ndbi := 0, before_ndwi := 0, after_ndwi := 0,
           conversion_status :=
             if bm.2 ≠ "" then bm.2
             else if am.2 ≠ "" then am.2
             else "API call failed" },
         (if bok then 1 else 0) + (if aok then 1 else 0))

/-- The batch loop of `_get_real_satellite_indices`, processing properties
in input order from position `i` of the outcome environment, accumulating
rows and the `successful_calls` counter. -/
def runRows (before_period after_period : String × String)
    (env : ℕ → PropOutcome) : List Property → ℕ → List RowResult × ℕ
  | [], _ => ([], 0)
  | p :: rest, i =>
      let head := process_property before_period after_period p (env i)
      let tail := runRows before_period after_period env rest (i + 1)
      (head.1 :: tail.1, head.2 + tail.2)

/-- `RealSentinelHubProcessor._get_real_satellite_indices` (lines 181-296):
returns the processed rows (all of them, failed ones included) and the
count of individually successful calls. -/
def get_real_satellite_indices (before_period after_period : String × String)
    (props : List Property) (env : ℕ → PropOutcome) : List RowResult × ℕ :=
  runRows before_period after_period env props 0

/-- `config_data["change_detection"]`: the configuration keys actually read
by the processor (`default_threshold`, the per-index interpretation bucket
boundaries, and the two NDWI thresholds). -/
structure ChangeThresholds where
  default_threshold : ℚ
  ndvi_moderate_increase : ℚ
  ndvi_moderate_decrease : ℚ
  ndbi_minor_increase : ℚ
  ndbi_demolition : ℚ
  ndwi_water_appearance : ℚ
  ndwi_water_reduction : ℚ
deriving DecidableEq

/-- Python's `round(x, 4)` (tie-breaking is irrelevant to every claim, so
Mathlib's `round` stands in). -/
def round4 (q : ℚ) : ℚ := ((round (q * 10000) : ℤ) : ℚ) / 10000

/-- `RealSentinelHubProcessor._interpret_ndvi_change` (lines 558-565). -/
def interpret_ndvi_change (t : ChangeThresholds) (difference : ℚ) : String :=
  if difference ≥ t.ndvi_moderate_increase then "Vegetation growth or improvement"
  else if difference ≤ t.ndvi_moderate_decrease then "Vegetation loss or degradation"
  else "No significant vegetation change"

/-- `RealSentinelHubProcessor._interpret_ndbi_change` (lines 567-574). -/
def interpret_ndbi_change (t : ChangeThresholds) (difference : ℚ) : String :=
  if difference ≥ t.ndbi_minor_increase then "Construction or development increase"
  else if difference ≤ t.ndbi_demolition then "Construction or development decrease"
  else "No significant built-up area change"

/-- `RealSentinelHubProcessor._interpret_ndwi_change` (lines 576-583). -/
def interpret_ndwi_change (t : ChangeThresholds) (difference : ℚ) : String :=
  if difference ≥ t.ndwi_water_appearance then "Water increase or flooding"
  else if difference ≤ t.ndwi_water_reduction then "Water decrease or drought"
  else "No significant water change"

/-- One fully analysed output row: the difference cells hold either a
number or the empty cell (`none` models the `""` written for failed rows),
and the interpretation/significance cells hold text or `""`. -/
structure AnalyzedRow where
  row : RowResult
  ndvi_difference : Option ℚ
  ndvi_interp : String
  ndvi_significance : String
  ndbi_difference : Option ℚ
  ndbi_interp : String
  ndbi_significance : String
  ndwi_difference : Option ℚ
  ndwi_interp : String
  ndwi_significance : String
deriving DecidableEq

/-- Per-row body of
`RealSentinelHubProcessor._calculate_differences_and_interpretations`
(lines 515-546). Note both the NDVI and the NDBI significance tests read
the same configuration value `default_threshold`; only NDWI has its own
(`ndwi_thresholds["water_appearance"]`). -/
def calculate_row (t : ChangeThresholds) (r : RowResult) : AnalyzedRow :=
  if r.conversion_status = "Successful" then
    let ndvi_diff := round4 (r.after_ndvi - r.before_ndvi)
    let ndbi_diff := round4 (r.after_ndbi - r.before_ndbi)
    let ndwi_diff := round4 (r.after_ndwi - r.before_ndwi)
    { row := r
      ndvi_difference := some ndvi_diff
      ndvi_interp := interpret_ndvi_change t ndvi_diff
      ndvi_significance := if |ndvi_diff| ≥ t.default_threshold then "Yes" else "No"
      ndbi_difference := some ndbi_diff
      ndbi_interp := interpret_ndbi_change t ndbi_diff
      ndbi_significance := if |ndbi_diff| ≥ t.default_threshold then "Yes" else "No"
      ndwi_difference := some ndwi_diff
      ndwi_interp := interpret_ndwi_change t ndwi_diff
      ndwi_significance := if |ndwi_diff| ≥ t.ndwi_water_appearance then "Yes" else "No" }
  else
    { row := r
      ndvi_difference := none, ndvi_interp := "", ndvi_significance := ""
      ndbi_difference := none, ndbi_interp := "", ndbi_significance := ""
      ndwi_difference := none, ndwi_interp := "", ndwi_significance := "" }

/-- `_calculate_differences_and_interpretations` over the whole batch
(lines 495-556): one analysed row per processed row, in order. -/
def calculate_differences_and_interpretations (t : ChangeThresholds)
    (rows : List RowResult) : List AnalyzedRow :=
  rows.map (calculate_row t)

/-- Result of one batch run of `process_file`: the outcome (error text on a
raise, analysed rows on success), the ledger row after the run, and the
number of external imagery calls issued. -/
structure BatchRun where
  result : Except String (List AnalyzedRow)
  ledger : Option UserAPIUsage
  external_calls : ℕ

/-- `RealSentinelHubProcessor.process_file` (lines 83-140), after the input
file has been loaded, with a database session present.  The pre-check uses
`required = 2 × len(df)`; on a failed check the raised
`FileProcessingException("API Limit Exceeded: ...")` is caught by the outer
handler and re-wrapped as `"Sentinel Hub processing failed: ..."`, with no
external call issued and the ledger untouched.  Otherwise each property is
processed (two calls each) and the ledger is incremented by the count of
individually successful calls when that count is positive. -/
def process_file (t : ChangeThresholds) (api_usage : Option UserAPIUsage)
    (current_time : Int) (props : List Property)
    (before_period after_period : String × String)
    (env : ℕ → PropOutcome) : BatchRun :=
  let required : Int := (props.length : Int) * 2
  let chk := check_api_limit api_usage current_time required
  if chk.1 = false then
    { result := .error ("Sentinel Hub processing failed: API Limit Exceeded: " ++ chk.2.1)
      ledger := api_usage
      external_calls := 0 }
  else
    let pr := get_real_satellite_indices before_period after_period props env
    let usage2 := if 0 < pr.2 then (increment_api_usage api_usage (pr.2 : Int)).1 else api_usage
    { result := .ok (calculate_differences_and_interpretations t pr.1)
      ledger := usage2
      external_calls := 2 * props.length }

/-- Specification-side count of the individually successful calls of one
property: one per measurement whose error is empty and whose indices are
not all zero; a loop raise contributes none. -/
def property_successful_calls (before_period after_period : String × String)
    (p : Property) : PropOutcome → ℕ
  | .calls beforeResp afterResp =>
      (if measurementSuccessful (analyze_single_property p.latitude
          p.longitude p.extent_ac before_period beforeResp) then 1 else 0) +
      (if measurementSuccessful (analyze_single_property p.latitude
          p.longitude p.extent_ac after_period afterResp) then 1 else 0)
  | .exn _ => 0

/-- Specification-side total of individually successful calls across the
batch, starting at position `i` of the outcome environment. -/
def total_successful_calls (before_period after_period : String × String)
    (env : ℕ → PropOutcome) : List Property → ℕ → ℕ
  | [], _ => 0
  | p :: rest, i =>
      property_successful_calls before_period after_period p (env i) +
        total_successful_calls before_period after_period env rest (i + 1)

/-- The spec's notion of a successful measurement: empty error and at
least one non-zero index value. -/
def measurement_successful_spec (m : Indices × String) : Prop :=
  m.2 = "" ∧ (m.1.ndvi ≠ 0 ∨ m.1.ndbi ≠ 0 ∨ m.1.ndwi ≠ 0)

instance (m : Indices × String) : Decidable (measurement_successful_spec m) := by
  unfold measurement_successful_spec; infer_instance

/-- Executable prefix test on character lists, used to state that one
message occurs inside another. -/
def listIsPrefixOf : List Char → List Char → Bool
  | [], _ => true
  | _ :: _, [] => false
  | a :: xs, b :: ys => decide (a = b) && listIsPrefixOf xs ys

/-- Executable substring test on character lists. -/
def listContainsSub (needle : List Char) : List Char → Bool
  | [] => listIsPrefixOf needle []
  | b :: ys => listIsPrefixOf needle (b :: ys) || listContainsSub needle ys

/-- `strContains needle hay` decides whether `needle` occurs contiguously
inside `hay`; it formalises "the message includes ...". -/
def strContains (needle hay : String) : Bool :=
  listContainsSub needle.data hay.data

/-- `RealSentinelHubProcessor._create_property_bbox` (lines 464-493), the
property-radius step: acres are converted at 4046.86 m² per acre, a
positive area gives `sqrt(area / 3.14159)` (the source divides by the
literal `3.14159`, not by π) and otherwise the default 50 m point radius
is used. -/
noncomputable def property_radius_meters (extent_ac : ℝ) : ℝ :=
  let extent_sq_meters := if extent_ac > 0 then extent_ac * 4046.86 else 0
  if extent_sq_meters > 0 then Real.sqrt (extent_sq_meters / 3.14159) else 50

/-- The effective radius: the larger of the property radius and the buffer
(`buffer_meters` defaults to 50 at the call sites). -/
noncomputable def effective_radius_meters (extent_ac buffer_meters : ℝ) : ℝ :=
  max (property_radius_meters extent_ac) buffer_meters

/-- Metres-to-degrees conversion of the effective radius (1 degree ≈ 111 km). -/
noncomputable def radius_degrees (extent_ac buffer_meters : ℝ) : ℝ :=
  effective_radius_meters extent_ac buffer_meters / 111000

/-- The axis-aligned bounding box `[lon-δ, lat-δ, lon+δ, lat+δ]`. -/
noncomputable def create_property_bbox (lat lon extent_ac buffer_meters : ℝ) :
    ℝ × ℝ × ℝ × ℝ :=
  (lon - radius_degrees extent_ac buffer_meters,
   lat - radius_degrees extent_ac buffer_meters,
   lon + radius_degrees extent_ac buffer_meters,
   lat + radius_degrees extent_ac buffer_meters)

/-- The effective radius as the spec's sentence states it, with the exact
constant π in the divisor (second definition for the refinement
comparison; the source uses `3.14159`). -/
noncomputable def claimed_effective_radius (extent_ac buffer_meters : ℝ) : ℝ :=
  if extent_ac > 0 then
    max (Real.sqrt (extent_ac * 4046.86 / Real.pi)) buffer_meters
  else 50

/-- A fixed thresholds configuration for concrete evaluations; its
`default_threshold` is 3, the value the spec names as the NDVI default. -/
def sampleThresholds : ChangeThresholds := ⟨3, 1, -1, 1, -1, 1/20, -1/20⟩

/-- A three-property batch input for concrete evaluations. -/
def sampleProps : List Property := [⟨1, 2, 0, []⟩, ⟨3, 4, 0, []⟩, ⟨5, 6, 0, []⟩]

/-- A successful provider response carrying one pixel with NDVI 1. -/
def okResp : SHResponse := .data [⟨1, 0, 0⟩] []

/-- Outcome environment for `sampleProps`: the first two properties
succeed on both calls, the third fails its after-period call, so 5 of the
6 issued calls succeed. -/
def sampleEnv : ℕ → PropOutcome := fun i =>
  if i = 2 then .calls okResp (.exn "Connection timeout" none)
  else .calls okResp okResp

/-! ## Substring helper lemmas -/

theorem listIsPrefixOf_append (xs ys : List Char) :
    listIsPrefixOf xs (xs ++ ys) = true := by
  induction xs with
  | nil => rfl
  | cons a rest ih => simp [listIsPrefixOf, ih]

theorem listIsPrefixOf_nil_right (n : List Char) :
    listIsPrefixOf n [] = true → n = [] := by
  cases n with
  | nil => intro _; rfl
  | cons a rest => intro h; simp [listIsPrefixOf] at h

theorem listContainsSub_nil_needle (h : List Char) :
    listContainsSub [] h = true := by
  induction h with
  | nil => rfl
  | cons b ys ih => simp [listContainsSub, listIsPrefixOf]

theorem listIsPrefixOf_extend (n : List Char) (t : List Char) :
    ∀ h, listIsPrefixOf n h = true → listIsPrefixOf n (h ++ t) = true := by
  induction n with
  | nil => intro h _; rfl
  | cons a xs ih =>
      intro h hp
      cases h with
      | nil => simp [listIsPrefixOf] at hp
      | cons b ys =>
          simp [listIsPrefixOf] at hp ⊢
          exact ⟨hp.1, ih ys hp.2⟩

theorem listContainsSub_of_isPrefix (n h : List Char)
    (hp : listIsPrefixOf n h = true) : listContainsSub n h = true := by
  cases h with
  | nil => simpa [listContainsSub] using hp
  | cons b ys => simp [listContainsSub, hp]

theorem listContainsSub_append_right (n t : List Char) :
    ∀ h, listContainsSub n h = true → listContainsSub n (h ++ t) = true := by
  intro h
  induction h with
  | nil =>
      intro hc
      have hn := listIsPrefixOf_nil_right n (by simpa [listContainsSub] using hc)
      subst hn
      simpa using listContainsSub_nil_needle t
  | cons b ys ih =>
      intro hc
      simp only [listContainsSub, Bool.or_eq_true] at hc
      rcases hc with hp | hsub
      · exact listContainsSub_of_isPrefix _ _
          (by simpa using listIsPrefixOf_extend n t (b :: ys) hp)
      · simp only [List.cons_append, listContainsSub, Bool.or_eq_true]
        exact Or.inr (ih hsub)

theorem listContainsSub_append_left (n h : List Char) :
    ∀ t, listContainsSub n h = true → listContainsSub n (t ++ h) = true := by
  intro t
  induction t with
  | nil => intro hc; simpa using hc
  | cons b ys ih =>
      intro hc
      simp only [List.cons_append, listContainsSub, Bool.or_eq_true]
      exact Or.inr (ih hc)

theorem listContainsSub_self (n : List Char) : listContainsSub n n = true := by
  apply listContainsSub_of_isPrefix
  simpa using listIsPrefixOf_append n []

theorem string_data_append (a b : String) : (a ++ b).data = a.data ++ b.data := rfl

theorem strContains_self (s : String) : strContains s s = true :=
  listContainsSub_self s.data

theorem strContains_append_right (n h t : String)
    (hc : strContains n h = true) : strContains n (h ++ t) = true := by
  simpa [strContains, string_data_append] using
    listContainsSub_append_right n.data t.data h.data hc

theorem strContains_append_left (n h t : String)
    (hc : strContains n h = true) : strContains n (t ++ h) = true := by
  simpa [strContains, string_data_append] using
    listContainsSub_append_left n.data h.data t.data hc

/-! ## Claim theorems: usage ledger -/

theorem summary_ok_of_allowed_ne_zero (u : UserAPIUsage) (now : Int)
    (h0 : u.allowed_api_calls ≠ 0) :
    ∃ s, get_usage_summary u now = .ok s := by
  rw [get_usage_summary, if_neg h0]
  exact ⟨_, rfl⟩

theorem summary_error_of_allowed_zero (u : UserAPIUsage) (now : Int)
    (h0 : u.allowed_api_calls = 0) :
    ∃ e, get_usage_summary u now = .error e := by
  rw [get_usage_summary, if_pos h0]
  exact ⟨_, rfl⟩

/-- C5: the entitlement check fails with an expiry message (containing the
rendered expiry date) when `now > expiry_at`; otherwise fails with an
insufficient-quota message (containing the used and allowed counts and the
needed amount) when `allowed - performed < required`; otherwise succeeds
with an empty message. -/
theorem C5_can_spend_trichotomy (u : UserAPIUsage) (now req : Int) :
    (now > u.user_expiry_date →
      (can_make_api_calls u now req).1 = false ∧
      strContains (strftimeYMD u.user_expiry_date)
        (can_make_api_calls u now req).2 = true) ∧
    (¬ now > u.user_expiry_date →
      u.allowed_api_calls - u.performed_api_calls < req →
      (can_make_api_calls u now req).1 = false ∧
      strContains (toString u.performed_api_calls)
        (can_make_api_calls u now req).2 = true ∧
      strContains (toString u.allowed_api_calls)
        (can_make_api_calls u now req).2 = true ∧
      strContains (toString req) (can_make_api_calls u now req).2 = true) ∧
    (¬ now > u.user_expiry_date →
      ¬ u.allowed_api_calls - u.performed_api_calls < req →
      can_make_api_calls u now req = (true, "")) := by
  refine ⟨fun h => ?_, fun h hq => ?_, fun h hq => ?_⟩
  · have hc : can_make_api_calls u now req =
        (false, "User account expired on " ++ strftimeYMD u.user_expiry_date ++
          ". Please renew your subscription.") := by
      simp [can_make_api_calls, h]
    rw [hc]
    exact ⟨rfl, strContains_append_right _ _ _
      (strContains_append_left _ _ _ (strContains_self _))⟩
  · have hc : can_make_api_calls u now req =
        (false, "API call limit exceeded. Used: " ++
          toString u.performed_api_calls ++ "/" ++
          toString u.allowed_api_calls ++ ". Need " ++
          toString req ++ " more calls.") := by
      simp [can_make_api_calls, h, hq]
    rw [hc]
    refine ⟨rfl, ?_, ?_, ?_⟩
    · exact strContains_append_right _ _ _ (strContains_append_right _ _ _
        (strContains_append_right _ _ _ (strContains_append_right _ _ _
          (strContains_append_right _ _ _
            (strContains_append_left _ _ _ (strContains_self _))))))
    · exact strContains_append_right _ _ _ (strContains_append_right _ _ _
        (strContains_append_right _ _ _
          (strContains_append_left _ _ _ (strContains_self _))))
    · exact strContains_append_right _ _ _
        (strContains_append_left _ _ _ (strContains_self _))
  · simp [can_make_api_calls, h, hq]

/-- Witness for C5 at concrete ledgers: an expired account, a short-quota
account (`allowed=10, performed=8, required=10`), and a passing check. -/
theorem C5_witness :
    ((can_make_api_calls ⟨50, 20, 0, 100⟩ 200 1).1 = false ∧
      strContains (strftimeYMD 100)
        (can_make_api_calls ⟨50, 20, 0, 100⟩ 200 1).2 = true) ∧
    ((can_make_api_calls ⟨10, 8, 0, 100⟩ 0 10).1 = false ∧
      strContains (toString (8 : Int))
        (can_make_api_calls ⟨10, 8, 0, 100⟩ 0 10).2 = true ∧
      strContains (toString (10 : Int))
        (can_make_api_calls ⟨10, 8, 0, 100⟩ 0 10).2 = true ∧
      strContains (toString (10 : Int))
        (can_make_api_calls ⟨10, 8, 0, 100⟩ 0 10).2 = true) ∧
    can_make_api_calls ⟨50, 0, 0, 100⟩ 0 2 = (true, "") := by
  exact ⟨(C5_can_spend_trichotomy ⟨50, 20, 0, 100⟩ 200 1).1 (by decide),
    (C5_can_spend_trichotomy ⟨10, 8, 0, 100⟩ 0 10).2.1 (by decide) (by decide),
    (C5_can_spend_trichotomy ⟨50, 0, 0, 100⟩ 0 2).2.2 (by decide) (by decide)⟩

/-- C8: `extend_expiry` extends from now when the ledger is expired and
from the current expiry otherwise, and the usage summary's `is_expired`
equals `now > expiry_at` with `days_until_expiry` floored at 0. -/
theorem C8_expiry_law (u : UserAPIUsage) (now days : Int) :
    ((now > u.user_expiry_date →
        (extend_expiry u now days).user_expiry_date = now + days * 86400) ∧
     (¬ now > u.user_expiry_date →
        (extend_expiry u now days).user_expiry_date =
          u.user_expiry_date + days * 86400)) ∧
    (∀ s, get_usage_summary u now = .ok s →
        s.is_expired = decide (now > u.user_expiry_date) ∧
        0 ≤ s.days_until_expiry) := by
  refine ⟨⟨fun h => ?_, fun h => ?_⟩, fun s hs => ?_⟩
  · simp [extend_expiry, h]
  · simp [extend_expiry, h]
  · by_cases h0 : u.allowed_api_calls = 0
    · simp [get_usage_summary, h0] at hs
    · simp only [get_usage_summary, h0, if_false, Except.ok.injEq] at hs
      subst hs
      exact ⟨rfl, le_max_left 0 _⟩

/-- Witness for C8: extending an expired ledger restarts from now, and the
summary of that ledger reports `is_expired` truthfully. -/
theorem C8_witness :
    (extend_expiry ⟨50, 0, 0, 100⟩ 200 30).user_expiry_date = 200 + 30 * 86400 ∧
    ∃ s, get_usage_summary ⟨50, 0, 0, 100⟩ 200 = .ok s ∧
      s.is_expired = decide ((200 : Int) > 100) ∧ 0 ≤ s.days_until_expiry := by
  refine ⟨(C8_expiry_law ⟨50, 0, 0, 100⟩ 200 30).1.1 (by decide), ?_⟩
  obtain ⟨s, hs⟩ := summary_ok_of_allowed_ne_zero ⟨50, 0, 0, 100⟩ 200 (by decide)
  exact ⟨s, hs, (C8_expiry_law ⟨50, 0, 0, 100⟩ 200 30).2 s hs⟩

/-- C10: with `allowed_api_calls = 0` (reachable via `reset_api_calls`
with new limit 0) the usage summary's unguarded percentage division
raises, so no summary is returned; with a non-zero allowance the summary
returns normally. -/
theorem C10_summary_division_by_zero (u : UserAPIUsage) (now : Int) :
    (u.allowed_api_calls = 0 → ∃ e, get_usage_summary u now = .error e) ∧
    (u.allowed_api_calls ≠ 0 → ∃ s, get_usage_summary u now = .ok s) ∧
    (∃ e, get_usage_summary (reset_api_calls u (some 0)) now = .error e) := by
  refine ⟨fun h0 => summary_error_of_allowed_zero u now h0,
    fun h0 => summary_ok_of_allowed_ne_zero u now h0,
    summary_error_of_allowed_zero _ now rfl⟩

/-- Witness for C10: a zero-allowance ledger errors, a 50-allowance ledger
returns a summary. -/
theorem C10_witness :
    (∃ e, get_usage_summary ⟨0, 3, 0, 100⟩ 0 = .error e) ∧
    (∃ s, get_usage_summary ⟨50, 3, 0, 100⟩ 0 = .ok s) := by
  exact ⟨(C10_summary_division_by_zero ⟨0, 3, 0, 100⟩ 0).1 (by decide),
    (C10_summary_division_by_zero ⟨50, 3, 0, 100⟩ 0).2.1 (by decide)⟩

/-! ## Batch-loop helper lemmas -/

theorem measurementSuccessful_iff (m : Indices × String) :
    measurementSuccessful m = true ↔ measurement_successful_spec m := by
  simp [measurementSuccessful, measurement_successful_spec, or_assoc]

theorem process_property_prop (bp ap : String × String) (p : Property)
    (out : PropOutcome) : ((process_property bp ap p out).1).prop = p := by
  cases out with
  | exn msg => rfl
  | calls br ar =>
      simp only [process_property]
      split <;> rfl

theorem process_property_count (bp ap : String × String) (p : Property)
    (out : PropOutcome) :
    (process_property bp ap p out).2 = property_successful_calls bp ap p out := by
  cases out with
  | exn msg => rfl
  | calls br ar =>
      by_cases hb : measurementSuccessful (analyze_single_property p.latitude
          p.longitude p.extent_ac bp br) <;>
        by_cases ha : measurementSuccessful (analyze_single_property p.latitude
          p.longitude p.extent_ac ap ar) <;>
        simp [process_property, property_successful_calls, hb, ha]

theorem runRows_map_prop (bp ap : String × String) (env : ℕ → PropOutcome) :
    ∀ (props : List Property) (i : ℕ),
      ((runRows bp ap env props i).1).map RowResult.prop = props := by
  intro props
  induction props with
  | nil => intro i; rfl
  | cons p rest ih =>
      intro i
      simp only [runRows, List.map_cons]
      exact congrArg₂ List.cons (process_property_prop bp ap p (env i)) (ih (i + 1))

theorem runRows_count (bp ap : String × String) (env : ℕ → PropOutcome) :
    ∀ (props : List Property) (i : ℕ),
      (runRows bp ap env props i).2 = total_successful_calls bp ap env props i := by
  intro props
  induction props with
  | nil => intro i; rfl
  | cons p rest ih =>
      intro i
      simp only [runRows, total_successful_calls]
      exact congrArg₂ (· + ·) (process_property_count bp ap p (env i)) (ih (i + 1))

theorem calculate_row_row (t : ChangeThresholds) (r : RowResult) :
    (calculate_row t r).row = r := by
  unfold calculate_row
  split <;> rfl

/-! ## Claim theorems: analyzer and batch -/

/-- C7: the per-property analyzer returns a measurement on every oracle
outcome (it is a total function into `Indices × String`, never an
exception): band means with an empty error on data, the zero measurement
with the no-data message on an empty response, and the zero measurement
carrying the (possibly parsed) error text on a provider raise. -/
theorem C7_analyzer_never_throws (lat lon extent_ac : ℚ)
    (period : String × String) :
    (∀ first rest,
      analyze_single_property lat lon extent_ac period (.data first rest) =
        ({ ndvi := qmean (first.map Pixel.b0), ndbi := qmean (first.map Pixel.b1),
           ndwi := qmean (first.map Pixel.b2) }, "")) ∧
    (analyze_single_property lat lon extent_ac period .empty =
      (Indices.zero,
        "No satellite data available for period " ++ periodStr period)) ∧
    (∀ msg parsedMessage,
      analyze_single_property lat lon extent_ac period (.exn msg parsedMessage) =
        (Indices.zero, parsedMessage.getD msg)) :=
  ⟨fun _ _ => rfl, rfl, fun _ _ => rfl⟩

/-- C2: the batch keeps exactly one output row per input property, in
input order, with the original property data intact, and the difference
calculation preserves this row-for-row correspondence. -/
theorem C2_row_conservation (bp ap : String × String) (props : List Property)
    (env : ℕ → PropOutcome) :
    ((get_real_satellite_indices bp ap props env).1).map RowResult.prop = props ∧
    ((get_real_satellite_indices bp ap props env).1).length = props.length ∧
    ∀ t, ((calculate_differences_and_interpretations t
        (get_real_satellite_indices bp ap props env).1).map
          (fun a => a.row.prop)) = props := by
  have h1 := runRows_map_prop bp ap env props 0
  refine ⟨h1, ?_, ?_⟩
  · simpa using congrArg List.length h1
  · intro t
    have h2 : ((fun a : AnalyzedRow => a.row.prop) ∘ calculate_row t) =
        RowResult.prop := by
      funext r
      simp [Function.comp, calculate_row_row]
    rw [calculate_differences_and_interpretations, List.map_map, h2]
    exact h1

/-- C3: a completed batch increments `performed_api_calls` by exactly the
total of individually successful calls (one per error-free, non-all-zero
measurement), leaving the allowance and expiry untouched. -/
theorem C3_partial_success_accounting (t : ChangeThresholds)
    (u : UserAPIUsage) (now : Int) (props : List Property)
    (bp ap : String × String) (env : ℕ → PropOutcome)
    (hcan : (can_make_api_calls u now ((props.length : Int) * 2)).1 = true)
    (h0 : u.allowed_api_calls ≠ 0) :
    ∃ u2, (process_file t (some u) now props bp ap env).ledger = some u2 ∧
      u2.performed_api_calls = u.performed_api_calls +
        (total_successful_calls bp ap env props 0 : Int) ∧
      u2.allowed_api_calls = u.allowed_api_calls ∧
      u2.user_expiry_date = u.user_expiry_date := by
  obtain ⟨s, hs⟩ := summary_ok_of_allowed_ne_zero u now h0
  have hchk : (check_api_limit (some u) now ((props.length : Int) * 2)).1 = true := by
    simp [check_api_limit, hs, hcan]
  have hcount := runRows_count bp ap env props 0
  unfold process_file
  rw [if_neg (by simp [hchk])]
  dsimp only
  by_cases hpos : 0 < (get_real_satellite_indices bp ap props env).2
  · rw [if_pos hpos]
    refine ⟨_, rfl, ?_, rfl, rfl⟩
    simp [increment_api_calls, get_real_satellite_indices] at *
    rw [hcount]
  · rw [if_neg hpos]
    have hz : (get_real_satellite_indices bp ap props env).2 = 0 :=
      Nat.eq_zero_of_not_pos hpos
    have hz2 : total_successful_calls bp ap env props 0 = 0 := by
      rw [← hcount]; exact hz
    exact ⟨u, rfl, by rw [hz2]; simp, rfl, rfl⟩

/-- Witness for C3 at the spec's own example: a 3-property batch whose
environment yields 5 successful and 1 failed call increments the ledger
by exactly 5, not by the 6 requested calls. -/
theorem C3_witness :
    total_successful_calls ("2022-11-01", "2023-01-31")
      ("2025-01-01", "2025-03-31") sampleEnv sampleProps 0 = 5 ∧
    ∃ u2, (process_file sampleThresholds (some ⟨10, 0, 0, 100⟩) 0 sampleProps
        ("2022-11-01", "2023-01-31") ("2025-01-01", "2025-03-31")
        sampleEnv).ledger = some u2 ∧
      u2.performed_api_calls = 0 + ((5 : ℕ) : Int) := by
  have hok : ∀ (lat lon e : ℚ) (bp : String × String),
      measurementSuccessful (analyze_single_property lat lon e bp okResp) = true := by
    intro lat lon e bp
    norm_num [okResp, analyze_single_property, measurementSuccessful, qmean]
  have hfail : ∀ (lat lon e : ℚ) (bp : String × String),
      measurementSuccessful (analyze_single_property lat lon e bp
        (.exn "Connection timeout" none)) = false := fun _ _ _ _ => rfl
  have htot : total_successful_calls ("2022-11-01", "2023-01-31")
      ("2025-01-01", "2025-03-31") sampleEnv sampleProps 0 = 5 := by
    simp [total_successful_calls, property_successful_calls, sampleProps,
      sampleEnv, hok, hfail]
  obtain ⟨u2, h1, h2, _, _⟩ := C3_partial_success_accounting sampleThresholds
    ⟨10, 0, 0, 100⟩ 0 sampleProps ("2022-11-01", "2023-01-31")
    ("2025-01-01", "2025-03-31") sampleEnv (by decide) (by decide)
  rw [htot] at h2
  exact ⟨htot, u2, h1, h2⟩

theorem process_property_status (bp ap : String × String) (p : Property)
    (br ar : SHResponse) :
    ((process_property bp ap p (.calls br ar)).1).conversion_status =
      (if measurementSuccessful (analyze_single_property p.latitude p.longitude
            p.extent_ac bp br) &&
          measurementSuccessful (analyze_single_property p.latitude p.longitude
            p.extent_ac ap ar) then
        "Successful"
      else if (analyze_single_property p.latitude p.longitude p.extent_ac bp br).2 ≠ "" then
        (analyze_single_property p.latitude p.longitude p.extent_ac bp br).2
      else if (analyze_single_property p.latitude p.longitude p.extent_ac ap ar).2 ≠ "" then
        (analyze_single_property p.latitude p.longitude p.extent_ac ap ar).2
      else "API call failed") := by
  simp only [process_property]
  split <;> rfl

/-- C4 counterexample: the status column is the string
`_temp_conversion_status`, so a before-measurement whose *error text* is
literally `"Successful"` makes a failed property read as a success — the
claimed iff between `status = Success` and both measurements being
successful is false at this input. -/
theorem C4_counterexample :
    ¬ ((((process_property ("b1", "b2") ("a1", "a2") ⟨0, 0, 0, []⟩
        (.calls (.exn "Successful" none) (.data [⟨1, 1, 1⟩] []))).1).conversion_status
          = "Successful") ↔
      (measurement_successful_spec (analyze_single_property 0 0 0 ("b1", "b2")
          (.exn "Successful" none)) ∧
       measurement_successful_spec (analyze_single_property 0 0 0 ("a1", "a2")
          (.data [⟨1, 1, 1⟩] [])))) := by
  intro h
  obtain ⟨h1, -⟩ := h.mp rfl
  exact absurd h1 (by decide)

/-- C4 (amended): provided no analyzer error message is literally the
string `"Successful"`, a row's status reads `"Successful"` iff both the
before and the after measurement have an empty error and at least one
non-zero index value. -/
theorem C4_status_iff (bp ap : String × String) (p : Property)
    (br ar : SHResponse)
    (hb : (analyze_single_property p.latitude p.longitude p.extent_ac bp br).2
      ≠ "Successful")
    (ha : (analyze_single_property p.latitude p.longitude p.extent_ac ap ar).2
      ≠ "Successful") :
    (((process_property bp ap p (.calls br ar)).1).conversion_status = "Successful" ↔
      (measurement_successful_spec
          (analyze_single_property p.latitude p.longitude p.extent_ac bp br) ∧
       measurement_successful_spec
          (analyze_single_property p.latitude p.longitude p.extent_ac ap ar))) := by
  rw [process_property_status]
  rw [show (measurement_successful_spec
        (analyze_single_property p.latitude p.longitude p.extent_ac bp br) ∧
      measurement_successful_spec
        (analyze_single_property p.latitude p.longitude p.extent_ac ap ar)) ↔
      ((measurementSuccessful
          (analyze_single_property p.latitude p.longitude p.extent_ac bp br) &&
        measurementSuccessful
          (analyze_single_property p.latitude p.longitude p.extent_ac ap ar)) = true) by
    rw [Bool.and_eq_true, measurementSuccessful_iff, measurementSuccessful_iff]]
  by_cases h12 : (measurementSuccessful
      (analyze_single_property p.latitude p.longitude p.extent_ac bp br) &&
    measurementSuccessful
      (analyze_single_property p.latitude p.longitude p.extent_ac ap ar)) = true
  · rw [if_pos h12]
    exact iff_of_true rfl h12
  · rw [if_neg h12]
    refine iff_of_false ?_ h12
    split
    · exact hb
    · split
      · exact ha
      · decide

/-- Witness for C4: a property whose before call raised with message
`"boom"` (and after call with `"oops"`) is not reported `"Successful"`. -/
theorem C4_witness :
    ¬ (((process_property ("b1", "b2") ("a1", "a2") ⟨0, 0, 0, []⟩
        (.calls (.exn "boom" none) (.exn "oops" none))).1).conversion_status
          = "Successful") := by
  intro h
  obtain ⟨h1, -⟩ := (C4_status_iff ("b1", "b2") ("a1", "a2") ⟨0, 0, 0, []⟩
    (.exn "boom" none) (.exn "oops" none) (by decide) (by decide)).mp h
  exact absurd h1 (by decide)

theorem calculate_row_eq_of_success (t : ChangeThresholds) (r : RowResult)
    (h : r.conversion_status = "Successful") :
    calculate_row t r =
      { row := r
        ndvi_difference := some (round4 (r.after_ndvi - r.before_ndvi))
        ndvi_interp := interpret_ndvi_change t (round4 (r.after_ndvi - r.before_ndvi))
        ndvi_significance :=
          if |round4 (r.after_ndvi - r.before_ndvi)| ≥ t.default_threshold
          then "Yes" else "No"
        ndbi_difference := some (round4 (r.after_ndbi - r.before_ndbi))
        ndbi_interp := interpret_ndbi_change t (round4 (r.after_ndbi - r.before_ndbi))
        ndbi_significance :=
          if |round4 (r.after_ndbi - r.before_ndbi)| ≥ t.default_threshold
          then "Yes" else "No"
        ndwi_difference := some (round4 (r.after_ndwi - r.before_ndwi))
        ndwi_interp := interpret_ndwi_change t (round4 (r.after_ndwi - r.before_ndwi))
        ndwi_significance :=
          if |round4 (r.after_ndwi - r.before_ndwi)| ≥ t.ndwi_water_appearance
          then "Yes" else "No" } := by
  unfold calculate_row
  rw [if_pos h]

theorem calculate_row_eq_of_failed (t : ChangeThresholds) (r : RowResult)
    (h : r.conversion_status ≠ "Successful") :
    calculate_row t r =
      { row := r
        ndvi_difference := none, ndvi_interp := "", ndvi_significance := ""
        ndbi_difference := none, ndbi_interp := "", ndbi_significance := ""
        ndwi_difference := none, ndwi_interp := "", ndwi_significance := "" } := by
  unfold calculate_row
  rw [if_neg h]

/-- C6 counterexample: the NDVI and the NDBI significance tests read the
same configuration value `default_threshold`, so the claimed distinct
per-index defaults (ndvi 3.0, ndbi 5.0) are unrealisable.  With the
threshold at the claimed NDVI default 3, a success row with NDBI
difference 4 is flagged `"Yes"`, contradicting the claimed NDBI default 5
(under which `|4| ≥ 5` fails), while the NDVI column does follow the
claimed formula. -/
theorem C6_counterexample :
    (calculate_row ⟨3, 1, -1, 1, -1, 1/20, -1/20⟩
        ⟨⟨0, 0, 0, []⟩, 0, 0, 0, 4, 0, 0, "Successful"⟩).ndbi_significance = "Yes" ∧
    ¬ ((calculate_row ⟨3, 1, -1, 1, -1, 1/20, -1/20⟩
        ⟨⟨0, 0, 0, []⟩, 0, 0, 0, 4, 0, 0, "Successful"⟩).ndbi_significance =
      (if |round4 ((4 : ℚ) - 0)| ≥ 5 then "Yes" else "No")) ∧
    (calculate_row ⟨3, 1, -1, 1, -1, 1/20, -1/20⟩
        ⟨⟨0, 0, 0, []⟩, 0, 0, 0, 4, 0, 0, "Successful"⟩).ndvi_significance =
      (if |round4 ((0 : ℚ) - 0)| ≥ 3 then "Yes" else "No") := by
  have h4 : round4 ((4 : ℚ) - 0) = 4 := by norm_num [round4, round_eq]
  have he := calculate_row_eq_of_success ⟨3, 1, -1, 1, -1, 1/20, -1/20⟩
    ⟨⟨0, 0, 0, []⟩, 0, 0, 0, 4, 0, 0, "Successful"⟩ rfl
  have hyes : (calculate_row ⟨3, 1, -1, 1, -1, 1/20, -1/20⟩
      ⟨⟨0, 0, 0, []⟩, 0, 0, 0, 4, 0, 0, "Successful"⟩).ndbi_significance = "Yes" := by
    rw [he]
    show (if |round4 ((4 : ℚ) - 0)| ≥ 3 then "Yes" else "No") = "Yes"
    rw [h4, if_pos (by norm_num)]
  refine ⟨hyes, ?_, ?_⟩
  · rw [hyes, h4, if_neg (by norm_num)]
    intro hcon
    exact absurd hcon (by decide)
  · rw [he]

/-- C6 (amended): for a Success row each index difference is
`round(after - before, 4)` and the significance flag is
`abs(difference) ≥ threshold`, where NDVI and NDBI share the single
configured `default_threshold` and NDWI uses the configured
`water_appearance` threshold; for a non-Success row all difference,
interpretation and significance cells are left blank. -/
theorem C6_change_classifier (t : ChangeThresholds) (r : RowResult) :
    (r.conversion_status = "Successful" →
      (calculate_row t r).ndvi_difference =
          some (round4 (r.after_ndvi - r.before_ndvi)) ∧
      (calculate_row t r).ndvi_significance =
        (if |round4 (r.after_ndvi - r.before_ndvi)| ≥ t.default_threshold
         then "Yes" else "No") ∧
      (calculate_row t r).ndbi_difference =
          some (round4 (r.after_ndbi - r.before_ndbi)) ∧
      (calculate_row t r).ndbi_significance =
        (if |round4 (r.after_ndbi - r.before_ndbi)| ≥ t.default_threshold
         then "Yes" else "No") ∧
      (calculate_row t r).ndwi_difference =
          some (round4 (r.after_ndwi - r.before_ndwi)) ∧
      (calculate_row t r).ndwi_significance =
        (if |round4 (r.after_ndwi - r.before_ndwi)| ≥ t.ndwi_water_appearance
         then "Yes" else "No")) ∧
    (r.conversion_status ≠ "Successful" →
      (calculate_row t r).ndvi_difference = none ∧
      (calculate_row t r).ndvi_interp = "" ∧
      (calculate_row t r).ndvi_significance = "" ∧
      (calculate_row t r).ndbi_difference = none ∧
      (calculate_row t r).ndbi_interp = "" ∧
      (calculate_row t r).ndbi_significance = "" ∧
      (calculate_row t r).ndwi_difference = none ∧
      (calculate_row t r).ndwi_interp = "" ∧
      (calculate_row t r).ndwi_significance = "") := by
  constructor
  · intro h
    rw [calculate_row_eq_of_success t r h]
    exact ⟨rfl, rfl, rfl, rfl, rfl, rfl⟩
  · intro h
    rw [calculate_row_eq_of_failed t r h]
    exact ⟨rfl, rfl, rfl, rfl, rfl, rfl, rfl, rfl, rfl⟩

/-- Witness for C6 at the spec's example: NDVI before 100, after 80 gives
difference −20 and `"Yes"` at threshold 3; a failed row's cells stay
blank. -/
theorem C6_witness :
    (calculate_row sampleThresholds
        ⟨⟨0, 0, 0, []⟩, 100, 80, 0, 0, 0, 0, "Successful"⟩).ndvi_difference =
      some (round4 ((80 : ℚ) - 100)) ∧
    round4 ((80 : ℚ) - 100) = -20 ∧
    (calculate_row sampleThresholds
        ⟨⟨0, 0, 0, []⟩, 100, 80, 0, 0, 0, 0, "Successful"⟩).ndvi_significance = "Yes" ∧
    (calculate_row sampleThresholds
        ⟨⟨0, 0, 0, []⟩, 0, 0, 0, 0, 0, 0, "boom"⟩).ndvi_difference = none := by
  obtain ⟨hd, hsig, -⟩ := (C6_change_classifier sampleThresholds
    ⟨⟨0, 0, 0, []⟩, 100, 80, 0, 0, 0, 0, "Successful"⟩).1 rfl
  have h20 : round4 ((80 : ℚ) - 100) = -20 := by norm_num [round4, round_eq]
  refine ⟨hd, h20, ?_, ?_⟩
  · rw [hsig]
    show (if |round4 ((80 : ℚ) - 100)| ≥ sampleThresholds.default_threshold
      then "Yes" else "No") = "Yes"
    rw [h20, if_pos (by norm_num [sampleThresholds])]
  · exact ((C6_change_classifier sampleThresholds
      ⟨⟨0, 0, 0, []⟩, 0, 0, 0, 0, 0, 0, "boom"⟩).2 (by decide)).1

/-- C1 counterexample: a ledger with `allowed_api_calls = 0` makes the
pre-check fail, and the run does abort with no external call and an
unchanged ledger — but the abort message is the generic
"Error checking API limits" text (the usage-summary division raised inside
`check_api_limit`), not the ledger's own insufficient-quota reason, which
does not occur in the surfaced message. -/
theorem C1_counterexample :
    (can_make_api_calls ⟨0, 0, 0, 100⟩ 0
      ((([(⟨1, 2, 0, []⟩ : Property)].length : Int)) * 2)).1 = false ∧
    (process_file sampleThresholds (some ⟨0, 0, 0, 100⟩) 0 [⟨1, 2, 0, []⟩]
        ("b1", "b2") ("a1", "a2") (fun _ => .exn "x")).result =
      .error "Sentinel Hub processing failed: API Limit Exceeded: Error checking API limits. Please try again." ∧
    (process_file sampleThresholds (some ⟨0, 0, 0, 100⟩) 0 [⟨1, 2, 0, []⟩]
        ("b1", "b2") ("a1", "a2") (fun _ => .exn "x")).ledger = some ⟨0, 0, 0, 100⟩ ∧
    (process_file sampleThresholds (some ⟨0, 0, 0, 100⟩) 0 [⟨1, 2, 0, []⟩]
        ("b1", "b2") ("a1", "a2") (fun _ => .exn "x")).external_calls = 0 ∧
    strContains (can_make_api_calls ⟨0, 0, 0, 100⟩ 0 2).2
      "Sentinel Hub processing failed: API Limit Exceeded: Error checking API limits. Please try again." = false := by
  exact ⟨by decide, rfl, rfl, rfl, by decide⟩

/-- C1 (amended): when the ledger reports a failed pre-check for
`required = 2 × N` and its allowance is non-zero, the run aborts before
any external call with the ledger's reason inside the surfaced message,
and the ledger (hence `performed_calls`) is unchanged.  (With a zero
allowance the abort and the unchanged ledger still hold, but the message
is the generic limit-check error — see the counterexample.) -/
theorem C1_quota_gate (t : ChangeThresholds) (u : UserAPIUsage) (now : Int)
    (props : List Property) (bp ap : String × String) (env : ℕ → PropOutcome)
    (h0 : u.allowed_api_calls ≠ 0)
    (hfail : (can_make_api_calls u now ((props.length : Int) * 2)).1 = false) :
    (process_file t (some u) now props bp ap env).ledger = some u ∧
    (process_file t (some u) now props bp ap env).external_calls = 0 ∧
    ∃ m, (process_file t (some u) now props bp ap env).result = .error m ∧
      strContains (can_make_api_calls u now ((props.length : Int) * 2)).2 m = true := by
  obtain ⟨s, hs⟩ := summary_ok_of_allowed_ne_zero u now h0
  have hchk : check_api_limit (some u) now ((props.length : Int) * 2) =
      ((can_make_api_calls u now ((props.length : Int) * 2)).1,
       (can_make_api_calls u now ((props.length : Int) * 2)).2, some s) := by
    simp [check_api_limit, hs]
  have hchk1 : (check_api_limit (some u) now ((props.length : Int) * 2)).1 = false := by
    rw [hchk]; exact hfail
  have hchk2 : (check_api_limit (some u) now ((props.length : Int) * 2)).2.1 =
      (can_make_api_calls u now ((props.length : Int) * 2)).2 := by
    rw [hchk]
  simp only [process_file]
  rw [hchk1, if_pos rfl, hchk2]
  exact ⟨rfl, rfl, _, rfl, strContains_append_left _ _ _ (strContains_self _)⟩

/-- Witness for C1 at the spec's example: `allowed=10, performed=8` and a
batch of 5 properties (10 calls required) aborts with the ledger's reason
in the message, zero external calls, and the ledger unchanged. -/
theorem C1_witness :
    (process_file sampleThresholds (some ⟨10, 8, 0, 100⟩) 0
        (List.replicate 5 ⟨1, 2, 0, []⟩) ("b1", "b2") ("a1", "a2")
        (fun _ => .exn "x")).ledger = some ⟨10, 8, 0, 100⟩ ∧
    (process_file sampleThresholds (some ⟨10, 8, 0, 100⟩) 0
        (List.replicate 5 ⟨1, 2, 0, []⟩) ("b1", "b2") ("a1", "a2")
        (fun _ => .exn "x")).external_calls = 0 ∧
    ∃ m, (process_file sampleThresholds (some ⟨10, 8, 0, 100⟩) 0
        (List.replicate 5 ⟨1, 2, 0, []⟩) ("b1", "b2") ("a1", "a2")
        (fun _ => .exn "x")).result = .error m ∧
      strContains (can_make_api_calls ⟨10, 8, 0, 100⟩ 0
        (((List.replicate 5 (⟨1, 2, 0, []⟩ : Property)).length : Int) * 2)).2 m = true :=
  C1_quota_gate sampleThresholds ⟨10, 8, 0, 100⟩ 0
    (List.replicate 5 ⟨1, 2, 0, []⟩) ("b1", "b2") ("a1", "a2")
    (fun _ => .exn "x") (by decide) (by decide)

/-! ## Claim theorems: geometry -/

theorem property_radius_pos (extent_ac : ℝ) (h : 0 < extent_ac) :
    property_radius_meters extent_ac = Real.sqrt (extent_ac * 4046.86 / 3.14159) := by
  simp only [property_radius_meters]
  rw [if_pos h, if_pos (by positivity)]

/-- C9 counterexample: at `extentAcres = 10` with the default 50 m buffer,
the source's effective radius `max(sqrt(10·4046.86 / 3.14159), 50)` differs
from the claimed `max(sqrt(10·4046.86 / π), 50)`: the source divides by the
literal `3.14159`, which is strictly below π, so the two radii are distinct
real numbers (the claim's bit-for-bit formula is wrong). -/
theorem C9_counterexample :
    effective_radius_meters 10 50 ≠ claimed_effective_radius 10 50 := by
  have hpi_lt : (3.14159 : ℝ) < Real.pi := by
    have h := Real.pi_gt_d6
    nlinarith
  have hdivlt : (10 : ℝ) * 4046.86 / Real.pi < 10 * 4046.86 / 3.14159 := by
    apply div_lt_div_of_pos_left (by norm_num) (by norm_num) hpi_lt
  have hs50 : Real.sqrt 2500 = 50 := by
    rw [show (2500 : ℝ) = 50 ^ 2 by norm_num, Real.sqrt_sq (by norm_num : (0:ℝ) ≤ 50)]
  have h50a : (50 : ℝ) ≤ Real.sqrt (10 * 4046.86 / 3.14159) := by
    rw [← hs50]
    exact Real.sqrt_le_sqrt (by norm_num)
  have h50b : (50 : ℝ) ≤ Real.sqrt (10 * 4046.86 / Real.pi) := by
    rw [← hs50]
    apply Real.sqrt_le_sqrt
    rw [le_div_iff₀ Real.pi_pos]
    nlinarith [Real.pi_lt_d2]
  have hlt : Real.sqrt (10 * 4046.86 / Real.pi) <
      Real.sqrt (10 * 4046.86 / 3.14159) :=
    Real.sqrt_lt_sqrt (by positivity) hdivlt
  unfold effective_radius_meters claimed_effective_radius
  rw [property_radius_pos 10 (by norm_num), if_pos (by norm_num : (10:ℝ) > 0)]
  rw [max_eq_left h50a, max_eq_left h50b]
  exact ne_of_gt hlt

/-- C9 (amended): the bounding-box derivation is a deterministic pure
function of its inputs; with `extentAcres = 0` and the default 50 m buffer
the effective radius is the 50 m point buffer; with `extentAcres > 0` it
is `max(sqrt(extentAcres · 4046.86 / 3.14159), buffer)` (the source's
divisor is the literal 3.14159, not π); the degree offset is
`effective_radius / 111000` and the box is
`[lon − δ, lat − δ, lon + δ, lat + δ]`. -/
theorem C9_geometry_law (lat lon extent_ac buffer_meters : ℝ) :
    (extent_ac ≤ 0 → effective_radius_meters extent_ac 50 = 50) ∧
    (0 < extent_ac → effective_radius_meters extent_ac buffer_meters =
      max (Real.sqrt (extent_ac * 4046.86 / 3.14159)) buffer_meters) ∧
    radius_degrees extent_ac buffer_meters =
      effective_radius_meters extent_ac buffer_meters / 111000 ∧
    create_property_bbox lat lon extent_ac buffer_meters =
      (lon - radius_degrees extent_ac buffer_meters,
       lat - radius_degrees extent_ac buffer_meters,
       lon + radius_degrees extent_ac buffer_meters,
       lat + radius_degrees extent_ac buffer_meters) := by
  refine ⟨fun h => ?_, fun h => ?_, rfl, rfl⟩
  · simp only [effective_radius_meters, property_radius_meters]
    rw [if_neg (not_lt.mpr h), if_neg (by norm_num), max_self]
  · rw [effective_radius_meters, property_radius_pos extent_ac h]

/-- Witness for C9: a point property (0 acres) gets the default 50 m
radius; 10 acres gives `max(sqrt(10·4046.86 / 3.14159), 50)`. -/
theorem C9_witness :
    effective_radius_meters 0 50 = 50 ∧
    effective_radius_meters 10 50 =
      max (Real.sqrt (10 * 4046.86 / 3.14159)) 50 :=
  ⟨(C9_geometry_law 0 0 0 50).1 le_rfl,
   (C9_geometry_law 0 0 10 50).2.1 (by norm_num)⟩

end GeoPulse
